import Mathlib

/-!
Verification of the API-surface extractor (`scripts/gen_stub.py`) of the
`kand` repository: a shallow embedding of the stub-generation pipeline
(module loading, public-name filtering, callable classification,
signature/doc extraction, rendering, file writing) together with proofs of
the specified properties.

Conventions of the embedding:
* A Python runtime value bound at a module's top level is modelled by
  `PyValue`, recording exactly the observations the script makes of it:
  the `inspect.isfunction` / `inspect.isbuiltin` flags, the result of
  `str(inspect.signature(...))` (with `none` standing for a raised
  `ValueError`), and the result of `inspect.getdoc(...)` (with `none`
  standing for Python `None`).
* A module is the ordered association list produced by `dir(pkg)` paired
  with `getattr(pkg, name)` for each name; `dir` reports each name once.
* The process environment is a table of importable modules; an absent
  entry models an `ImportError` raised by `importlib.import_module`.
* The filesystem is a table of directories and of files with contents;
  `os.makedirs(d, exist_ok=True)` on the empty string raises
  `FileNotFoundError` (CPython behaviour), otherwise it ensures `d`
  (with its ancestors) exists.
* Doc strings use `\n` as the line separator (`str.splitlines`).
-/

namespace GenStub

/-- A top-level runtime value of a module, as observed by the script. -/
structure PyValue where
  isFunction : Bool
  isBuiltin : Bool
  signature : Option String
  doc : Option String
deriving DecidableEq, Repr

/-- A loaded module: `dir(pkg)` order together with `getattr` results. -/
structure PyModule where
  attrs : List (String × PyValue)
deriving DecidableEq, Repr

/-- The process environment: which module names are importable. -/
structure PyEnv where
  modules : List (String × PyModule)
deriving DecidableEq, Repr

/-- Exceptions the embedded pipeline can raise. -/
inductive PyError where
  | importError
  | fileNotFoundError
deriving DecidableEq, Repr

/-- The filesystem: existing directories and files with contents.
A path listed in `dirs` stands for that directory existing together
with all of its ancestors (the guarantee `os.makedirs` establishes). -/
structure FileSystem where
  dirs : List String
  files : List (String × String)
deriving DecidableEq, Repr

/-- How a command-line run ends. -/
inductive RunOutcome where
  | exited (code : Nat)
  | crashed (e : PyError)
  | finished
deriving DecidableEq, Repr

/-- `importlib.import_module`: resolve a module name in the environment. -/
def lookupModule (env : PyEnv) (name : String) : Option PyModule :=
  (env.modules.find? (fun p => p.1 == name)).map (fun p => p.2)

/-- Python `str.startswith` for a plain string argument. -/
def startswith (s pre : String) : Bool :=
  pre.data.isPrefixOf s.data

/-- Python `str.endswith` for a plain string argument. -/
def endswith (s suf : String) : Bool :=
  suf.data.reverse.isPrefixOf s.data.reverse

/-- The magic-name test of the source: `name.startswith("__") and name.endswith("__")`. -/
def isMagicName (name : String) : Bool :=
  startswith name "__" && endswith name "__"

/-- `public_names`: all names from `dir(pkg)` that are not magic names. -/
def publicNames (m : PyModule) : List String :=
  (m.attrs.map Prod.fst).filter (fun name => !(isMagicName name))

/-- The callable classifier: `inspect.isfunction(attr) or inspect.isbuiltin(attr)`. -/
def isEligible (v : PyValue) : Bool :=
  v.isFunction || v.isBuiltin

/-- Signature text: `str(inspect.signature(attr))`, or `"(...)"` on `ValueError`. -/
def sigText (v : PyValue) : String :=
  match v.signature with
  | some s => s
  | none => "(...)"

/-- Prepend a character to the first string of a list. -/
def consFirst (c : Char) : List String → List String
  | [] => [⟨[c]⟩]
  | s :: rest => ⟨c :: s.data⟩ :: rest

/-- Split a character list at every newline, keeping empty pieces. -/
def splitOnNl : List Char → List String
  | [] => [""]
  | c :: rest => if c = '\n' then "" :: splitOnNl rest else consFirst c (splitOnNl rest)

/-- Python `str.splitlines` restricted to the `\n` separator:
split on newlines, with no trailing empty line for a trailing newline. -/
def pySplitlines (s : String) : List String :=
  let parts := splitOnNl s.data
  if parts.getLast? = some "" then parts.dropLast else parts

/-- Lines of the docstring: `doc = inspect.getdoc(attr) or ""` followed by
`doc_lines = doc.splitlines() if doc else []`. -/
def docLinesOf (v : PyValue) : List String :=
  let doc := (v.doc).getD ""
  if doc = "" then [] else pySplitlines doc

/-- The declaration line `f"def {name}{sig}:"`. -/
def declLineOf (name sig : String) : String :=
  "def " ++ name ++ sig ++ ":"

/-- The fixed header: module-naming comment plus generated-file block comment,
and the blank line that follows them. -/
def headerLines (packageName : String) : List String :=
  ["# Auto-generated stub file for " ++ packageName,
   "\"\"\"",
   "Type hints and function signatures stub file for IDE autocompletion.",
   "Auto-generated to avoid manual maintenance. Can be enhanced with more precise type annotations.",
   "\"\"\"",
   ""]

/-- The lines one loop iteration appends to `pyi_lines` for the name `name`
bound to `v`: nothing when `v` is not classified as callable, otherwise the
declaration line, the docstring block, the `...` body and a blank line. -/
def entryLines (name : String) (v : PyValue) : List String :=
  if isEligible v then
    let sig := sigText v
    let doc_lines := docLinesOf v
    let docBlock :=
      if doc_lines.isEmpty then
        ["    \"\"\"No docstring available.\"\"\""]
      else
        ["    \"\"\""] ++ doc_lines.map (fun line => "    " ++ line) ++ ["    \"\"\""]
    [declLineOf name sig] ++ docBlock ++ ["    ...", ""]
  else []

/-- The full `pyi_lines` list built by `generate_stub_file`: the header,
then the loop over public names appending each entry's lines. -/
def generateLines (packageName : String) (m : PyModule) : List String :=
  (m.attrs.filter (fun p => !(isMagicName p.1))).foldl
    (fun acc p => acc ++ entryLines p.1 p.2)
    (headerLines packageName)

/-- The written text: `"\n".join(pyi_lines)`. -/
def stubText (packageName : String) (m : PyModule) : String :=
  String.intercalate "\n" (generateLines packageName m)

/-- `os.path.dirname` for `/`-separated paths (posixpath semantics):
everything up to the final separator, with trailing separators stripped
unless the head consists only of separators. -/
def dirname (p : String) : String :=
  let cs := p.data
  let tailLen := (cs.reverse.takeWhile (fun c => c != '/')).length
  let head := cs.take (cs.length - tailLen)
  if !head.isEmpty && head.any (fun c => c != '/') then
    ⟨(head.reverse.dropWhile (fun c => c == '/')).reverse⟩
  else ⟨head⟩

/-- `os.makedirs(d, exist_ok=True)`: raises `FileNotFoundError` on the empty
path, otherwise ensures the directory exists. -/
def makedirs (fs : FileSystem) (d : String) : Except PyError FileSystem :=
  if d = "" then Except.error PyError.fileNotFoundError
  else Except.ok { fs with dirs := d :: fs.dirs }

/-- `open(path, "w")` followed by `write`: truncate any existing file at the
path and store the new content. -/
def writeFile (fs : FileSystem) (path content : String) : FileSystem :=
  { fs with files := (path, content) :: fs.files.filter (fun q => q.1 != path) }

/-- Read a file's content back from the filesystem model. -/
def readFile (fs : FileSystem) (path : String) : Option String :=
  (fs.files.find? (fun q => q.1 == path)).map (fun q => q.2)

/-- Whether a directory exists in the filesystem model. -/
def dirExists (fs : FileSystem) (d : String) : Bool :=
  fs.dirs.contains d

/-- `generate_stub_file(package_name, output_path)`: import the module,
render the stub text, create the output directory, write the file, and
return the new filesystem together with the `Generated: ...` line printed
on success.  An exception aborts the run with the filesystem untouched. -/
def generate_stub_file (env : PyEnv) (fs : FileSystem)
    (package_name output_path : String) :
    Except PyError (FileSystem × String) :=
  match lookupModule env package_name with
  | none => Except.error PyError.importError
  | some pkg =>
    let content := stubText package_name pkg
    match makedirs fs (dirname output_path) with
    | Except.error e => Except.error e
    | Except.ok fs1 =>
      Except.ok (writeFile fs1 output_path content, "Generated: " ++ output_path)

/-- The first usage line printed when arguments are missing. -/
def usageLine : String :=
  "Usage: python gen_stub.py <package_name> <output_path>"

/-- The example-invocation line printed when arguments are missing. -/
def exampleLine : String :=
  "Example: python gen_stub.py kand python/kand/_kand.pyi"

/-- The `__main__` block: with `len(sys.argv) < 3` print the usage lines and
exit with status 1; otherwise run `generate_stub_file` on `argv[1]`,
`argv[2]`.  Returns the final filesystem, the stdout lines, and the outcome. -/
def runMain (env : PyEnv) (fs : FileSystem) (argv : List String) :
    FileSystem × List String × RunOutcome :=
  if argv.length < 3 then
    (fs, [usageLine, exampleLine], RunOutcome.exited 1)
  else
    match generate_stub_file env fs (argv.getD 1 "") (argv.getD 2 "") with
    | Except.error e => (fs, [], RunOutcome.crashed e)
    | Except.ok (fs2, msg) => (fs2, [msg], RunOutcome.finished)

/-! ### Specification-side definitions

The record type and renderer below follow the wording of the design
document (sections 3 and 4.5), to be compared with the code-derived
`generateLines` by refinement. -/

/-- A `CallableRecord` of the specification: name, signature text and
doc lines of one eligible callable. -/
structure CallableRecord where
  name : String
  signature_text : String
  doc_lines : List String
deriving DecidableEq, Repr

/-- Extraction pass of the specification: one record per public symbol
classified as invocable, in enumeration order. -/
def extractRecords (attrs : List (String × PyValue)) : List CallableRecord :=
  (attrs.filter (fun p => !(isMagicName p.1) && isEligible p.2)).map
    (fun p => { name := p.1, signature_text := sigText p.2, doc_lines := docLinesOf p.2 })

/-- Documentation block of the specification renderer: delimiters around the
re-indented doc lines, or the single-line fallback in the same convention. -/
def docBlockOf (doc_lines : List String) : List String :=
  if doc_lines = [] then
    ["    \"\"\"No docstring available.\"\"\""]
  else
    ["    \"\"\""] ++ doc_lines.map (fun line => "    " ++ line) ++ ["    \"\"\""]

/-- Block of the specification renderer for one record: declaration line,
documentation block, placeholder body marker, blank separator. -/
def recordBlock (r : CallableRecord) : List String :=
  [declLineOf r.name r.signature_text] ++ docBlockOf r.doc_lines ++ ["    ...", ""]

/-- The specification's stub renderer: header, then each record's block in
enumeration order. -/
def renderDocument (packageName : String) (records : List CallableRecord) : List String :=
  headerLines packageName ++ records.flatMap recordBlock

/-- A line is a declaration line when it begins with the four characters
of `def` plus a space. -/
def isDeclLine (l : String) : Bool :=
  l.data.take 4 == "def ".data

/-! ### Sample data used by the witness theorems -/

/-- A plain function with a signature and a two-paragraph docstring. -/
def addVal : PyValue :=
  { isFunction := true, isBuiltin := false,
    signature := some "(a, b)", doc := some "Add two numbers.\n\nReturns the sum." }

/-- A builtin with no retrievable signature and no docstring. -/
def nosigVal : PyValue :=
  { isFunction := false, isBuiltin := true, signature := none, doc := none }

/-- A non-invocable public value (a class). -/
def classVal : PyValue :=
  { isFunction := false, isBuiltin := false, signature := none, doc := some "A class." }

/-- A sample module with magic, invocable, and non-invocable attributes. -/
def sampleModule : PyModule :=
  { attrs := [("__doc__", classVal), ("Klass", classVal), ("_private", addVal),
              ("add", addVal), ("nosig", nosigVal)] }

/-- The sample module with the non-invocable attribute removed: it extracts
to the same records as `sampleModule`. -/
def sampleModuleB : PyModule :=
  { attrs := [("_private", addVal), ("add", addVal), ("nosig", nosigVal)] }

/-- A sample environment in which `kand` resolves to `sampleModule`. -/
def sampleEnv : PyEnv :=
  { modules := [("kand", sampleModule)] }

/-- An environment in which nothing is importable. -/
def emptyEnv : PyEnv :=
  { modules := [] }

/-- An empty filesystem. -/
def emptyFS : FileSystem :=
  { dirs := [], files := [] }

/-! ### Helper lemmas -/

/-- Appending inside a left fold is flat-mapping after the initial value. -/
theorem foldl_append_eq_flatMap {α β : Type} (f : α → List β) (l : List α)
    (init : List β) :
    l.foldl (fun acc x => acc ++ f x) init = init ++ l.flatMap f := by
  induction l generalizing init with
  | nil => simp
  | cons a t ih => simp [ih, List.append_assoc]

/-- For an invocable value, the loop body's lines are the specification's
record block for the extracted record. -/
theorem entryLines_eligible (name : String) (v : PyValue)
    (h : isEligible v = true) :
    entryLines name v =
      recordBlock { name := name, signature_text := sigText v, doc_lines := docLinesOf v } := by
  simp only [entryLines, h, if_true, recordBlock, docBlockOf]
  rcases docLinesOf v with _ | ⟨l, t⟩ <;> simp

/-- For a non-invocable value, the loop body emits nothing. -/
theorem entryLines_not_eligible (name : String) (v : PyValue)
    (h : isEligible v = false) :
    entryLines name v = [] := by
  simp [entryLines, h]

/-- The loop body over public attributes equals the record blocks of the
extracted records. -/
theorem flatMap_entryLines_eq (attrs : List (String × PyValue)) :
    ((attrs.filter fun p => !(isMagicName p.1)).flatMap fun p => entryLines p.1 p.2)
      = (extractRecords attrs).flatMap recordBlock := by
  induction attrs with
  | nil => simp [extractRecords]
  | cons a t ih =>
    rcases hpub : isMagicName a.1 with _ | _
    · rcases helig : isEligible a.2 with _ | _
      · simp only [extractRecords, List.filter_cons, hpub, helig] at ih ⊢
        simp [entryLines_not_eligible a.1 a.2 helig, ih]
      · simp only [extractRecords, List.filter_cons, hpub, helig] at ih ⊢
        simp [entryLines_eligible a.1 a.2 helig, ih]
    · simp [extractRecords, List.filter_cons, hpub] at ih ⊢
      exact ih

/-- Code-to-specification refinement: the lines the script builds are the
header followed by the specification renderer's blocks for the extracted
records. -/
theorem generateLines_eq_render (packageName : String) (m : PyModule) :
    generateLines packageName m = renderDocument packageName (extractRecords m.attrs) := by
  rw [generateLines, foldl_append_eq_flatMap, renderDocument, flatMap_entryLines_eq]

/-- Declaration lines are recognised by `isDeclLine`. -/
theorem isDeclLine_declLineOf (name sig : String) :
    isDeclLine (declLineOf name sig) = true := by
  have h : (declLineOf name sig).data
      = 'd' :: 'e' :: 'f' :: ' ' :: (name.data ++ sig.data ++ [':']) := by
    simp [declLineOf, String.data_append]
  simp [isDeclLine, h, List.take]

/-- Indented lines are never declaration lines. -/
theorem isDeclLine_indent (s : String) :
    isDeclLine ("    " ++ s) = false := by
  have h : ("    " ++ s).data = ' ' :: ' ' :: ' ' :: ' ' :: s.data := by
    simp [String.data_append]
  simp [isDeclLine, h, List.take]

/-- The header comment naming the module is not a declaration line. -/
theorem isDeclLine_headerComment (s : String) :
    isDeclLine ("# Auto-generated stub file for " ++ s) = false := by
  have h : ("# Auto-generated stub file for " ++ s).data
      = "# Auto-generated stub file for ".data ++ s.data := String.data_append _ _
  rw [show ("# Auto-generated stub file for ".data)
      = '#' :: ' ' :: 'A' :: 'u' :: "to-generated stub file for ".data from rfl] at h
  simp [isDeclLine, h, List.take]

/-- No header line is a declaration line. -/
theorem filter_isDeclLine_header (packageName : String) :
    (headerLines packageName).filter isDeclLine = [] := by
  simp [headerLines, List.filter_cons, isDeclLine_headerComment]
  decide

/-- Within one entry's lines, the declaration line is the only declaration
line. -/
theorem filter_isDeclLine_entry (name : String) (v : PyValue)
    (h : isEligible v = true) :
    (entryLines name v).filter isDeclLine = [declLineOf name (sigText v)] := by
  simp only [entryLines, h, if_true]
  rcases hd : (docLinesOf v).isEmpty with _ | _
  · simp only [hd, Bool.false_eq_true, if_false]
    simp only [List.filter_append, List.filter_cons, isDeclLine_declLineOf]
    rw [show (List.filter isDeclLine ((docLinesOf v).map fun line => "    " ++ line)) = []
      from by
        rw [List.filter_eq_nil_iff]
        intro a ha
        rcases List.mem_map.mp ha with ⟨l, _, rfl⟩
        simp [isDeclLine_indent]]
    simp
    decide
  · simp only [hd, if_true]
    simp only [List.filter_append, List.filter_cons, isDeclLine_declLineOf]
    simp
    decide

/-- The declaration lines of the generated body, attribute by attribute. -/
theorem declLines_body (attrs : List (String × PyValue)) :
    (((attrs.filter fun p => !(isMagicName p.1)).flatMap fun p =>
        entryLines p.1 p.2).filter isDeclLine)
      = (attrs.filter fun p => !(isMagicName p.1) && isEligible p.2).map
          (fun p => declLineOf p.1 (sigText p.2)) := by
  induction attrs with
  | nil => simp
  | cons a t ih =>
    rcases hpub : isMagicName a.1 with _ | _
    · rcases helig : isEligible a.2 with _ | _
      · simp [List.filter_cons, hpub, helig, entryLines_not_eligible a.1 a.2 helig, ih]
      · simp [List.filter_cons, hpub, helig, List.filter_append,
          filter_isDeclLine_entry a.1 a.2 helig, ih]
    · simp [List.filter_cons, hpub, ih]

/-- When every character of a path differs from the separator, `os.path.dirname`
of the path is the empty string. -/
theorem dirname_of_bare_filename (p : String) (h : ∀ c ∈ p.data, c ≠ '/') :
    dirname p = "" := by
  have ht : p.data.reverse.takeWhile (fun c => c != '/') = p.data.reverse := by
    rw [List.takeWhile_eq_self_iff]
    intro x hx
    simpa using h x (List.mem_reverse.mp hx)
  simp [dirname, ht]

/-! ### Claim theorems -/

/-- C1: for every module, the generated stub contains exactly one declaration
line per public, invocable, non-magic-named top-level symbol — in enumeration
order, with none for non-invocable public symbols — and, since the module
reports each name once, no symbol is declared twice. -/
theorem decl_blocks_bijective (packageName : String) (m : PyModule)
    (hnd : (m.attrs.map Prod.fst).Nodup) :
    (generateLines packageName m).filter isDeclLine
      = (m.attrs.filter fun p => !(isMagicName p.1) && isEligible p.2).map
          (fun p => declLineOf p.1 (sigText p.2)) ∧
    ((m.attrs.filter fun p => !(isMagicName p.1) && isEligible p.2).map
        Prod.fst).Nodup := by
  constructor
  · rw [generateLines, foldl_append_eq_flatMap, List.filter_append,
      filter_isDeclLine_header, List.nil_append, declLines_body]
  · exact List.Nodup.sublist ((List.filter_sublist _).map Prod.fst) hnd

/-- C1 witness: the property evaluated on the sample module. -/
theorem decl_blocks_bijective_witness :
    (generateLines "kand" sampleModule).filter isDeclLine
      = (sampleModule.attrs.filter fun p => !(isMagicName p.1) && isEligible p.2).map
          (fun p => declLineOf p.1 (sigText p.2)) ∧
    ((sampleModule.attrs.filter fun p => !(isMagicName p.1) && isEligible p.2).map
        Prod.fst).Nodup :=
  decl_blocks_bijective "kand" sampleModule (by decide)

/-- C2: for an eligible callable with no retrievable signature, extraction
never raises and the declaration line carries the exact placeholder `(...)`:
the emitted line is `def <name>(...):`. -/
theorem missing_signature_placeholder (name : String) (v : PyValue)
    (h1 : isEligible v = true) (h2 : v.signature = none) :
    sigText v = "(...)" ∧
    (entryLines name v).head? = some (declLineOf name "(...)") := by
  have hs : sigText v = "(...)" := by simp [sigText, h2]
  refine ⟨hs, ?_⟩
  simp [entryLines, h1, hs]

/-- C2 witness: the property evaluated on the signature-less builtin. -/
theorem missing_signature_placeholder_witness :
    sigText nosigVal = "(...)" ∧
    (entryLines "nosig" nosigVal).head? = some (declLineOf "nosig" "(...)") :=
  missing_signature_placeholder "nosig" nosigVal (by decide) (by decide)

/-- C3: for an eligible callable with no attached docstring, the rendered
block consists of the declaration line, exactly the fallback line
`No docstring available.` inside the docstring delimiters, the `...` body
and the blank separator. -/
theorem missing_doc_fallback (name : String) (v : PyValue)
    (h1 : isEligible v = true) (h2 : v.doc = none) :
    entryLines name v =
      [declLineOf name (sigText v),
       "    \"\"\"No docstring available.\"\"\"",
       "    ...", ""] := by
  have hd : docLinesOf v = [] := by simp [docLinesOf, h2]
  simp [entryLines, h1, hd]

/-- C3 witness: the property evaluated on the docstring-less builtin. -/
theorem missing_doc_fallback_witness :
    entryLines "nosig" nosigVal =
      [declLineOf "nosig" (sigText nosigVal),
       "    \"\"\"No docstring available.\"\"\"",
       "    ...", ""] :=
  missing_doc_fallback "nosig" nosigVal (by decide) (by decide)

/-- C4: rendering is a deterministic pure function of the extracted records
and the module identifier — two runs whose CallableRecord sequences coincide
produce byte-identical stub text. -/
theorem render_deterministic (packageName : String) (m1 m2 : PyModule)
    (h : extractRecords m1.attrs = extractRecords m2.attrs) :
    stubText packageName m1 = stubText packageName m2 := by
  unfold stubText
  rw [generateLines_eq_render, generateLines_eq_render, h]

/-- C4 witness: two modules differing only in non-record data (a dropped
class and magic attribute) render to identical text. -/
theorem render_deterministic_witness :
    stubText "kand" sampleModule = stubText "kand" sampleModuleB :=
  render_deterministic "kand" sampleModule sampleModuleB (by decide)

/-- C5: a top-level name is excluded from the public names if and only if it
both starts with two underscores and ends with two underscores; all other
names, single-underscore-prefixed ones included, are retained. -/
theorem magic_name_filtering (m : PyModule) (name : String)
    (hmem : name ∈ m.attrs.map Prod.fst) :
    (name ∉ publicNames m
      ↔ (startswith name "__" = true ∧ endswith name "__" = true)) := by
  simp [publicNames, List.mem_filter, isMagicName, hmem]

/-- C5 witness: the rule evaluated on a magic and a single-underscore name of
the sample module. -/
theorem magic_name_filtering_witness :
    ("__doc__" ∉ publicNames sampleModule
      ↔ (startswith "__doc__" "__" = true ∧ endswith "__doc__" "__" = true)) ∧
    ("_private" ∉ publicNames sampleModule
      ↔ (startswith "_private" "__" = true ∧ endswith "_private" "__" = true)) :=
  ⟨magic_name_filtering sampleModule "__doc__" (by decide),
   magic_name_filtering sampleModule "_private" (by decide)⟩

/-- C6: when the module identifier does not resolve, the run fails with
the import error before any output: the filesystem is unchanged and nothing is
printed. -/
theorem resolution_failure_no_output (env : PyEnv) (fs : FileSystem)
    (prog packageName outputPath : String)
    (h : lookupModule env packageName = none) :
    generate_stub_file env fs packageName outputPath
        = Except.error PyError.importError ∧
    runMain env fs [prog, packageName, outputPath]
        = (fs, [], RunOutcome.crashed PyError.importError) := by
  have hg : generate_stub_file env fs packageName outputPath
      = Except.error PyError.importError := by
    simp [generate_stub_file, h]
  refine ⟨hg, ?_⟩
  simp [runMain, hg]

/-- C6 witness: the property evaluated in an environment where
nothing is importable. -/
theorem resolution_failure_no_output_witness :
    generate_stub_file emptyEnv emptyFS "kand" "out.pyi"
        = Except.error PyError.importError ∧
    runMain emptyEnv emptyFS ["gen_stub.py", "kand", "out.pyi"]
        = (emptyFS, [], RunOutcome.crashed PyError.importError) :=
  resolution_failure_no_output emptyEnv emptyFS "gen_stub.py" "kand" "out.pyi"
    (by decide)

/-- C7: the generated document is the fixed header (module-naming comment and
generated-file block comment) followed, for each record in order, by the
declaration line `def <name><signature_text>:`, the documentation block in
the delimiter convention (doc lines re-indented by the fixed unit, or the
single-line fallback), the `...` body marker and a blank separator line. -/
theorem render_block_structure (packageName : String) (m : PyModule) :
    generateLines packageName m
      = headerLines packageName ++ (extractRecords m.attrs).flatMap recordBlock := by
  rw [generateLines_eq_render, renderDocument]

/-- C8: with a resolvable module and an output path with a non-empty parent,
the run succeeds: the parent directory is created, and the rendered text is
stored at the output path, truncating whatever was there. -/
theorem creates_parents_and_writes (env : PyEnv) (fs : FileSystem)
    (m : PyModule) (packageName outputPath : String)
    (hm : lookupModule env packageName = some m)
    (hd : dirname outputPath ≠ "") :
    ∃ fs2 msg,
      generate_stub_file env fs packageName outputPath = Except.ok (fs2, msg) ∧
      readFile fs2 outputPath = some (stubText packageName m) ∧
      dirExists fs2 (dirname outputPath) = true ∧
      msg = "Generated: " ++ outputPath := by
  refine ⟨writeFile { fs with dirs := dirname outputPath :: fs.dirs } outputPath
      (stubText packageName m), _, ?_, ?_, ?_, rfl⟩
  · simp [generate_stub_file, hm, makedirs, hd]
  · simp [readFile, writeFile, List.find?]
  · simp [dirExists, writeFile]

/-- C8 witness: the property evaluated on an empty filesystem and the path
`a/b/c/out.stub`. -/
theorem creates_parents_and_writes_witness :
    ∃ fs2 msg,
      generate_stub_file sampleEnv emptyFS "kand" "a/b/c/out.stub"
          = Except.ok (fs2, msg) ∧
      readFile fs2 "a/b/c/out.stub" = some (stubText "kand" sampleModule) ∧
      dirExists fs2 (dirname "a/b/c/out.stub") = true ∧
      msg = "Generated: " ++ "a/b/c/out.stub" :=
  creates_parents_and_writes sampleEnv emptyFS sampleModule "kand"
    "a/b/c/out.stub" (by decide) (by decide)

/-- C9: with fewer than two command-line arguments the tool prints the usage
and example lines, exits with status 1, and leaves the filesystem untouched. -/
theorem missing_args_usage (env : PyEnv) (fs : FileSystem) (argv : List String)
    (h : argv.length < 3) :
    runMain env fs argv = (fs, [usageLine, exampleLine], RunOutcome.exited 1) := by
  simp [runMain, h]

/-- C9 witness: the property evaluated on an invocation with no arguments. -/
theorem missing_args_usage_witness :
    runMain sampleEnv emptyFS ["gen_stub.py"]
      = (emptyFS, [usageLine, exampleLine], RunOutcome.exited 1) :=
  missing_args_usage sampleEnv emptyFS ["gen_stub.py"] (by decide)

/-- C10: for an output path with no directory separator, directory creation
runs on the empty dirname and raises the file-not-found error before the
write: the run crashes and the filesystem is unchanged. -/
theorem bare_output_path_fails (env : PyEnv) (fs : FileSystem) (m : PyModule)
    (prog packageName outputPath : String)
    (hm : lookupModule env packageName = some m)
    (hsep : ∀ c ∈ outputPath.data, c ≠ '/') :
    generate_stub_file env fs packageName outputPath
        = Except.error PyError.fileNotFoundError ∧
    runMain env fs [prog, packageName, outputPath]
        = (fs, [], RunOutcome.crashed PyError.fileNotFoundError) := by
  have hd := dirname_of_bare_filename outputPath hsep
  have hg : generate_stub_file env fs packageName outputPath
      = Except.error PyError.fileNotFoundError := by
    simp [generate_stub_file, hm, hd, makedirs]
  exact ⟨hg, by simp [runMain, hg]⟩

/-- C10 witness: the property evaluated on the bare output path `out.pyi`. -/
theorem bare_output_path_fails_witness :
    generate_stub_file sampleEnv emptyFS "kand" "out.pyi"
        = Except.error PyError.fileNotFoundError ∧
    runMain sampleEnv emptyFS ["gen_stub.py", "kand", "out.pyi"]
        = (emptyFS, [], RunOutcome.crashed PyError.fileNotFoundError) :=
  bare_output_path_fails sampleEnv emptyFS sampleModule "gen_stub.py" "kand"
    "out.pyi" (by decide) (by decide)

end GenStub

